import Mathlib

/-!
Shallow embedding of the FX analytics service (calculator.py, fx_client.py,
main.py) for checking the natural-language specification against the code.

Modelling conventions:
- Numeric rates are Python floats in the source; they are modelled as exact
  rationals.  `round(x, n)` is Python's round-half-to-even on `n` decimal
  digits, modelled by `roundTo`.
- Calendar dates are ISO `YYYY-MM-DD` strings in the source, which Python's
  `sorted` compares lexicographically; lexicographic order on ISO date strings
  coincides with numeric order on the digits, so dates are modelled as natural
  numbers (e.g. 20250101 stands for "2025-01-01").
- Python dicts are modelled as association lists with unique keys; dict key
  order is irrelevant to the functions modelled here (keys are sorted before
  use, or accessed by lookup only).
- `datetime.now()` is passed in explicitly as an integer timestamp; the
  `timedelta` TTL is an integer number of the same time units.
- The upstream HTTP call and the fallback file read are effects at the system
  boundary; each call site receives their outcome as an explicit argument
  (`UpstreamResponse`, `Option JObj`), and a `Bool` in the result records
  whether the upstream request was issued.
-/

/-- The per-date value inside the `rates` mapping of an upstream response:
either a currency-keyed bundle (`{"USD": 1.1}`) or a bare numeric value.
Mirrors the `isinstance(date_rates, dict)` branch in
`FXCalculator.calculate_daily_metrics`. -/
inductive DateRates where
  | bundle (currencies : List (String × ℚ))
  | value (rate : ℚ)
deriving DecidableEq, Repr

/-- A parsed JSON object as handled by the client and calculator: its
`rates` field (if present) maps dates to `DateRates`; `extra` records whether
the object carries any other keys, which only matters for Python truthiness
(`if cached:` / `if not rates_data:`). -/
structure JObj where
  rates : Option (List (Nat × DateRates))
  extra : Bool
deriving DecidableEq, Repr

/-- Python truthiness of the object: an empty dict is falsy. -/
def JObj.truthy (o : JObj) : Bool := o.rates.isSome || o.extra

/-- One element of the list returned by `calculate_daily_metrics`:
`{'date': ..., 'rate': ..., 'pct_change': ...}`. -/
structure DailyMetric where
  date : Nat
  rate : ℚ
  pct_change : Option ℚ
deriving DecidableEq, Repr

/-- The dict returned by `calculate_totals`. -/
structure Totals where
  start_rate : Option ℚ
  end_rate : Option ℚ
  total_pct_change : Option ℚ
  mean_rate : Option ℚ
deriving DecidableEq, Repr

/-- The dict returned by `format_response`; the `daily` key is present only
when the breakdown mode adds it, modelled by `Option`. -/
structure SummaryResponse where
  base : String
  symbol : String
  start_date : Option String
  end_date : Option String
  breakdown : String
  totals : Totals
  daily : Option (List DailyMetric)
deriving DecidableEq, Repr

/-- Round-half-to-even to an integer, as Python's builtin `round`. -/
def roundHalfEven (q : ℚ) : ℤ :=
  if q - ⌊q⌋ < 1/2 then ⌊q⌋
  else if 1/2 < q - ⌊q⌋ then ⌊q⌋ + 1
  else if ⌊q⌋ % 2 = 0 then ⌊q⌋ else ⌊q⌋ + 1

/-- Python's `round(q, ndigits)`. -/
def roundTo (ndigits : Nat) (q : ℚ) : ℚ :=
  (roundHalfEven (q * 10 ^ ndigits) : ℚ) / 10 ^ ndigits

/-- `FXCalculator._safe_pct_change`: percentage change guarded against a zero
denominator. -/
def FXCalculator.safe_pct_change (old_value new_value : ℚ) : Option ℚ :=
  if old_value = 0 then none
  else some (((new_value - old_value) / old_value) * 100)

/-- Extraction of the USD rate from a date's entry, as in the loop body of
`calculate_daily_metrics`: a dict is looked up at `'USD'` (`None` when the
key is absent), a bare value is used directly. -/
def FXCalculator.extract_usd_rate (date_rates : DateRates) : Option ℚ :=
  match date_rates with
  | .bundle currencies => currencies.lookup "USD"
  | .value v => some v

/-- The `for date in sorted_dates` loop of `calculate_daily_metrics`,
threading `previous_rate`.  A date whose entry yields no USD rate is skipped
and does not update `previous_rate`; an emitted date stores the rounded rate
and rounded percentage change but threads the unrounded rate. -/
def FXCalculator.daily_loop (rates : List (Nat × DateRates)) (dates : List Nat)
    (previous_rate : Option ℚ) : List DailyMetric :=
  match dates with
  | [] => []
  | date :: rest =>
    match (rates.lookup date).bind FXCalculator.extract_usd_rate with
    | none => FXCalculator.daily_loop rates rest previous_rate
    | some current_rate =>
      let pct_change : Option ℚ :=
        match previous_rate with
        | none => none
        | some p => FXCalculator.safe_pct_change p current_rate
      { date := date
        rate := roundTo 6 current_rate
        pct_change := pct_change.map (roundTo 4) } ::
        FXCalculator.daily_loop rates rest (some current_rate)

/-- `FXCalculator.calculate_daily_metrics`.  The source guard
`if not rates_data or 'rates' not in rates_data: return []` reduces to the
absence of the `rates` key (an empty dict has no `rates` key). -/
def FXCalculator.calculate_daily_metrics (rates_data : JObj) : List DailyMetric :=
  match rates_data.rates with
  | none => []
  | some rates =>
    FXCalculator.daily_loop rates (List.insertionSort (· ≤ ·) (rates.map Prod.fst)) none

/-- `FXCalculator.calculate_totals`. -/
def FXCalculator.calculate_totals (daily_metrics : List DailyMetric) : Totals :=
  match daily_metrics with
  | [] => { start_rate := none, end_rate := none
            total_pct_change := none, mean_rate := none }
  | first :: rest =>
    let start_rate := first.rate
    let end_rate := (List.getLast (first :: rest) (List.cons_ne_nil first rest)).rate
    let total_pct_change := FXCalculator.safe_pct_change start_rate end_rate
    let mean_rate := ((first :: rest).map DailyMetric.rate).sum / ((first :: rest).length : ℚ)
    { start_rate := some (roundTo 6 start_rate)
      end_rate := some (roundTo 6 end_rate)
      total_pct_change := total_pct_change.map (roundTo 4)
      mean_rate := some (roundTo 6 mean_rate) }

/-- `FXCalculator.format_response`: the `daily` key is added exactly when the
breakdown mode is `'day'`. -/
def FXCalculator.format_response (daily_metrics : List DailyMetric) (totals : Totals)
    (breakdown : String) (start_date end_date : Option String) : SummaryResponse :=
  { base := "EUR"
    symbol := "USD"
    start_date := start_date
    end_date := end_date
    breakdown := breakdown
    totals := totals
    daily := if breakdown = "day" then some daily_metrics else none }

/-- The in-memory TTL cache `FXCache`: a dict from key to
`(timestamp, value)`, plus the configured TTL. -/
structure FXCache where
  cache : List (String × Int × JObj)
  ttl : Int
deriving DecidableEq, Repr

/-- Removal of a key from the cache dict, as `del self.cache[key]`. -/
def removeKey (key : String) (l : List (String × Int × JObj)) :
    List (String × Int × JObj) :=
  l.filter (fun p => p.1 != key)

/-- `FXCache.get`: return the stored value while fresh; delete the entry and
report a miss once `now - timestamp < ttl` fails.  Returns the (possibly
updated) cache alongside the result. -/
def FXCache.get (c : FXCache) (now : Int) (key : String) : Option JObj × FXCache :=
  match c.cache.lookup key with
  | some (timestamp, value) =>
    if now - timestamp < c.ttl then (some value, c)
    else (none, { c with cache := removeKey key c.cache })
  | none => (none, c)

/-- `FXCache.set`: store `(now, value)` under `key`, replacing any previous
entry for that key (dict assignment). -/
def FXCache.set (c : FXCache) (now : Int) (key : String) (value : JObj) : FXCache :=
  { c with cache := (key, now, value) :: removeKey key c.cache }

/-- `FXCache.clear`. -/
def FXCache.clear (c : FXCache) : FXCache := { c with cache := [] }

/-- Outcome of the one upstream HTTP request a client call may issue:
a parsed JSON body on success, or failure of any kind (network error,
non-2xx status, malformed body, timeout), which the source handles
uniformly in a single `except` clause. -/
inductive UpstreamResponse where
  | success (data : JObj)
  | failure
deriving DecidableEq, Repr

/-- What a client call returns to its caller: a data payload, or the
`ValueError` raised by `_load_fallback` when the fallback file cannot be
loaded (the `DataUnavailable` condition). -/
inductive ClientResult where
  | data (d : JObj)
  | dataUnavailable
deriving DecidableEq, Repr

/-- Result of a client call: the returned value (or propagated error), the
cache state afterwards, and whether the upstream request was issued. -/
structure FetchResult where
  result : ClientResult
  cache : FXCache
  upstreamCalled : Bool
deriving DecidableEq, Repr

/-- `FXClient._load_fallback`: the parsed snapshot when the file loads, the
`ValueError` otherwise. -/
def FXClient.load_fallback (fallback : Option JObj) : ClientResult :=
  match fallback with
  | some d => .data d
  | none => .dataUnavailable

/-- The cache key of `get_range`: `f"range:{start_date}:{end_date}:{base}:{symbols}"`. -/
def FXClient.range_key (start_date end_date base symbols : String) : String :=
  "range:" ++ start_date ++ ":" ++ end_date ++ ":" ++ base ++ ":" ++ symbols

/-- The cache key of `get_latest`: `f"latest:{base}:{symbols}"`. -/
def FXClient.latest_key (base symbols : String) : String :=
  "latest:" ++ base ++ ":" ++ symbols

/-- The shared body of `get_range` and `get_latest` (textually identical in
the source apart from the key and URL): consult the cache, return a truthy
hit (`if cached:`), otherwise issue the upstream request; on success store
and return the body, on failure return the fallback. -/
def FXClient.fetch_with_cache (cache : FXCache) (now : Int) (cache_key : String)
    (upstream : UpstreamResponse) (fallback : Option JObj) : FetchResult :=
  let looked := cache.get now cache_key
  match looked.1 with
  | some cached =>
    if cached.truthy then { result := .data cached, cache := looked.2, upstreamCalled := false }
    else
      match upstream with
      | .success data =>
        { result := .data data, cache := looked.2.set now cache_key data, upstreamCalled := true }
      | .failure =>
        { result := FXClient.load_fallback fallback, cache := looked.2, upstreamCalled := true }
  | none =>
    match upstream with
    | .success data =>
      { result := .data data, cache := looked.2.set now cache_key data, upstreamCalled := true }
    | .failure =>
      { result := FXClient.load_fallback fallback, cache := looked.2, upstreamCalled := true }

/-- `FXClient.get_range`. -/
def FXClient.get_range (cache : FXCache) (now : Int)
    (start_date end_date base symbols : String)
    (upstream : UpstreamResponse) (fallback : Option JObj) : FetchResult :=
  FXClient.fetch_with_cache cache now
    (FXClient.range_key start_date end_date base symbols) upstream fallback

/-- `FXClient.get_latest`. -/
def FXClient.get_latest (cache : FXCache) (now : Int) (base symbols : String)
    (upstream : UpstreamResponse) (fallback : Option JObj) : FetchResult :=
  FXClient.fetch_with_cache cache now
    (FXClient.latest_key base symbols) upstream fallback

/-- The exceptions that can escape the fetch-and-compute `try` block of the
`/summary` handler in `main.py`. -/
inductive RequestExc where
  | httpException (status : Nat)
  | valueError
  | otherExc
deriving DecidableEq, Repr

/-- Outcome of the fetch step (`await fx_client.get_range(...)`) inside the
handler: a payload, the propagated `ValueError` (`DataUnavailable`), or any
other internal failure. -/
inductive HandlerInput where
  | fetched (rates_data : JObj)
  | dataUnavailable
  | otherFailure
deriving DecidableEq, Repr

/-- What the `/summary` endpoint produces: a JSON body, or an HTTP error
status. -/
inductive SummaryResult where
  | ok (response : SummaryResponse)
  | err (status : Nat)
deriving DecidableEq, Repr

/-- The `try` block of `get_summary` in `main.py` (after request validation):
fetch, compute daily metrics, raise `HTTPException(404)` on an empty metrics
list, otherwise compute totals and format the response. -/
def summary_body (inp : HandlerInput) (breakdown startDate endDate : String) :
    Except RequestExc SummaryResponse :=
  match inp with
  | .dataUnavailable => .error .valueError
  | .otherFailure => .error .otherExc
  | .fetched rates_data =>
    let daily_metrics := FXCalculator.calculate_daily_metrics rates_data
    if daily_metrics = [] then .error (.httpException 404)
    else
      .ok (FXCalculator.format_response daily_metrics
            (FXCalculator.calculate_totals daily_metrics)
            breakdown (some startDate) (some endDate))

/-- The `/summary` handler's exception mapping: `except ValueError` yields
503; every other exception — including the `HTTPException(404)` raised inside
the `try` block, which is not a `ValueError` — is caught by the blanket
`except Exception` clause and re-raised as a 500. -/
def get_summary (inp : HandlerInput) (breakdown startDate endDate : String) :
    SummaryResult :=
  match summary_body inp breakdown startDate endDate with
  | .ok r => .ok r
  | .error .valueError => .err 503
  | .error (.httpException _) => .err 500
  | .error .otherExc => .err 500

/-! ### Helper lemmas about the cache dict -/

theorem lookup_removeKey_self (key : String) (l : List (String × Int × JObj)) :
    (removeKey key l).lookup key = none := by
  induction l with
  | nil => rfl
  | cons p t ih =>
    rcases p with ⟨k1, rest⟩
    by_cases h : k1 = key
    · subst h
      simpa only [removeKey, List.filter_cons, bne_self_eq_false, Bool.false_eq_true,
        if_false] using ih
    · have hne : (k1 != key) = true := bne_iff_ne.mpr h
      have hbeq : (key == k1) = false := beq_false_of_ne (Ne.symm h)
      simp only [removeKey, List.filter_cons, hne, if_true, List.lookup_cons, hbeq, cond_false]
      exact ih

theorem lookup_removeKey_other (key other : String) (l : List (String × Int × JObj))
    (h : other ≠ key) : (removeKey key l).lookup other = l.lookup other := by
  induction l with
  | nil => rfl
  | cons p t ih =>
    rcases p with ⟨k1, rest⟩
    by_cases hk : k1 = key
    · subst hk
      have hbeq : (other == k1) = false := beq_false_of_ne h
      simp only [removeKey, List.filter_cons, bne_self_eq_false, Bool.false_eq_true,
        if_false, List.lookup_cons, hbeq, cond_false]
      exact ih
    · have hne : (k1 != key) = true := bne_iff_ne.mpr hk
      by_cases ho : other = k1
      · simp only [removeKey, List.filter_cons, hne, if_true, List.lookup_cons, ho,
          beq_self_eq_true, cond_true]
      · have hbeq : (other == k1) = false := beq_false_of_ne ho
        simp only [removeKey, List.filter_cons, hne, if_true, List.lookup_cons, hbeq, cond_false]
        exact ih

/-! ### Claim theorems -/

/-- C8: on empty input `calculate_daily_metrics` returns an empty sequence
(both for an empty dict and for an empty `rates` mapping), and
`calculate_totals` on an empty metrics list returns a summary with all four
fields absent. -/
theorem c8_empty_input :
    FXCalculator.calculate_daily_metrics { rates := none, extra := false } = [] ∧
    FXCalculator.calculate_daily_metrics { rates := some [], extra := false } = [] ∧
    FXCalculator.calculate_totals [] =
      { start_rate := none, end_rate := none, total_pct_change := none, mean_rate := none } :=
  ⟨rfl, rfl, rfl⟩

/-- C9: `format_response` with breakdown mode `"none"` never carries the
`daily` field, with mode `"day"` it carries the full daily sequence, and the
totals are carried unchanged in every mode. -/
theorem c9_breakdown_modes :
    ∀ (daily_metrics : List DailyMetric) (totals : Totals) (s e : Option String),
      (FXCalculator.format_response daily_metrics totals "none" s e).daily = none ∧
      (FXCalculator.format_response daily_metrics totals "day" s e).daily = some daily_metrics ∧
      (∀ b, (FXCalculator.format_response daily_metrics totals b s e).totals = totals) :=
  fun _ _ _ _ => ⟨rfl, rfl, fun _ => rfl⟩

/-- C1: the `/summary` handler maps a `DataUnavailable` failure (the
`ValueError` from the failed fallback) to 503 and any other internal failure
to 500, but a successfully fetched series yielding no daily metric is ALSO
surfaced as 500 — not as the 404 the claim states — because the
`HTTPException(404)` raised inside the `try` block is caught by the blanket
`except Exception` clause and re-raised as a 500. -/
theorem c1_status_mapping :
    ∀ (breakdown startDate endDate : String),
      get_summary .dataUnavailable breakdown startDate endDate = .err 503 ∧
      get_summary .otherFailure breakdown startDate endDate = .err 500 ∧
      get_summary (.fetched { rates := some [], extra := false })
        breakdown startDate endDate = .err 500 :=
  fun _ _ _ => ⟨rfl, rfl, rfl⟩

/-- C4: a cached entry is returned while `now - timestamp < ttl`; once that
fails, `get` reports a miss and deletes the entry (so the key no longer
resolves); eviction is lazy — a `get` on one key never touches any other
key's entry; and after expiry a repeated `get_range` call issues a new
upstream request instead of being served the stale entry. -/
theorem c4_cache_ttl :
    (∀ (c : FXCache) (now : Int) (key : String) (ts : Int) (v : JObj),
      c.cache.lookup key = some (ts, v) → now - ts < c.ttl →
      c.get now key = (some v, c)) ∧
    (∀ (c : FXCache) (now : Int) (key : String) (ts : Int) (v : JObj),
      c.cache.lookup key = some (ts, v) → ¬(now - ts < c.ttl) →
      c.get now key = (none, { cache := removeKey key c.cache, ttl := c.ttl }) ∧
        (removeKey key c.cache).lookup key = none) ∧
    (∀ (c : FXCache) (now : Int) (key other : String),
      other ≠ key → ((c.get now key).2).cache.lookup other = c.cache.lookup other) ∧
    (∀ (c : FXCache) (now : Int) (sD eD b sy : String) (ts : Int) (v : JObj)
      (u : UpstreamResponse) (fb : Option JObj),
      c.cache.lookup (FXClient.range_key sD eD b sy) = some (ts, v) →
      ¬(now - ts < c.ttl) →
      (FXClient.get_range c now sD eD b sy u fb).upstreamCalled = true) := by
  refine ⟨?_, ?_, ?_, ?_⟩
  · intro c now key ts v h1 h2
    simp [FXCache.get, h1, h2]
  · intro c now key ts v h1 h2
    exact ⟨by simp [FXCache.get, h1, h2], lookup_removeKey_self key c.cache⟩
  · intro c now key other h
    unfold FXCache.get
    match hl : c.cache.lookup key with
    | none => rfl
    | some (ts, v) =>
      by_cases hf : now - ts < c.ttl
      · simp [hf]
      · simp [hf, lookup_removeKey_other key other c.cache h]
  · intro c now sD eD b sy ts v u fb h1 h2
    cases u <;>
      simp [FXClient.get_range, FXClient.fetch_with_cache, FXCache.get, h1, h2]

/-- Witness for C4 at concrete inputs: a fresh hit, an expired eviction, and
an expired entry forcing the client back upstream. -/
theorem c4_cache_ttl_witness :
    (FXCache.mk [("k", 5, { rates := none, extra := true })] 300).get 10 "k" =
      (some { rates := none, extra := true },
        FXCache.mk [("k", 5, { rates := none, extra := true })] 300) ∧
    ((FXCache.mk [("k", 5, { rates := none, extra := true })] 300).get 400 "k" =
      (none, { cache := removeKey "k" [("k", 5, { rates := none, extra := true })], ttl := 300 }) ∧
      (removeKey "k" [("k", 5, { rates := none, extra := true })]).lookup "k" = none) ∧
    ((FXCache.mk [("k", 5, { rates := none, extra := true })] 300).get 10 "j").2.cache.lookup "k" =
      [("k", 5, ({ rates := none, extra := true } : JObj))].lookup "k" ∧
    (FXClient.get_range
      (FXCache.mk [(FXClient.range_key "2025-01-01" "2025-01-31" "EUR" "USD", 5,
        { rates := none, extra := true })] 300)
      400 "2025-01-01" "2025-01-31" "EUR" "USD" .failure none).upstreamCalled = true :=
  ⟨c4_cache_ttl.1 (FXCache.mk [("k", 5, { rates := none, extra := true })] 300)
     10 "k" 5 { rates := none, extra := true } (by decide) (by decide),
   c4_cache_ttl.2.1 (FXCache.mk [("k", 5, { rates := none, extra := true })] 300)
     400 "k" 5 { rates := none, extra := true } (by decide) (by decide),
   c4_cache_ttl.2.2.1 (FXCache.mk [("k", 5, { rates := none, extra := true })] 300)
     10 "j" "k" (by decide),
   c4_cache_ttl.2.2.2
     (FXCache.mk [(FXClient.range_key "2025-01-01" "2025-01-31" "EUR" "USD", 5,
       { rates := none, extra := true })] 300)
     400 "2025-01-01" "2025-01-31" "EUR" "USD" 5 { rates := none, extra := true }
     .failure none (by decide) (by decide)⟩

/-- Helper for C10: when a client call with a failing upstream actually went
to the upstream (i.e. was not served a truthy cache hit), nothing is ever
stored: the resulting cache dict is a sublist of the original (at most the
lazy eviction of the key's expired entry), the TTL is unchanged, and a
repeated call for the same key goes upstream again. -/
theorem fetch_fallback_no_store (c : FXCache) (now : Int) (key : String) (fb : Option JObj)
    (h : (FXClient.fetch_with_cache c now key .failure fb).upstreamCalled = true) :
    List.Sublist (FXClient.fetch_with_cache c now key .failure fb).cache.cache c.cache ∧
    (FXClient.fetch_with_cache c now key .failure fb).cache.ttl = c.ttl ∧
    ∀ (now2 : Int) (u2 : UpstreamResponse) (fb2 : Option JObj),
      (FXClient.fetch_with_cache (FXClient.fetch_with_cache c now key .failure fb).cache
        now2 key u2 fb2).upstreamCalled = true := by
  rcases hl : c.cache.lookup key with _ | ⟨ts, v⟩
  · have e1 : FXClient.fetch_with_cache c now key .failure fb =
        { result := FXClient.load_fallback fb, cache := c, upstreamCalled := true } := by
      simp [FXClient.fetch_with_cache, FXCache.get, hl]
    refine ⟨by rw [e1], by rw [e1], ?_⟩
    intro now2 u2 fb2
    rw [e1]
    cases u2 <;> simp [FXClient.fetch_with_cache, FXCache.get, hl]
  · by_cases hf : now - ts < c.ttl
    · by_cases ht : v.truthy
      · simp [FXClient.fetch_with_cache, FXCache.get, hl, hf, ht] at h
      · have e1 : FXClient.fetch_with_cache c now key .failure fb =
            { result := FXClient.load_fallback fb, cache := c, upstreamCalled := true } := by
          simp [FXClient.fetch_with_cache, FXCache.get, hl, hf, ht]
        refine ⟨by rw [e1], by rw [e1], ?_⟩
        intro now2 u2 fb2
        rw [e1]
        by_cases hf2 : now2 - ts < c.ttl
        · cases u2 <;> simp [FXClient.fetch_with_cache, FXCache.get, hl, hf2, ht]
        · cases u2 <;> simp [FXClient.fetch_with_cache, FXCache.get, hl, hf2]
    · have e1 : FXClient.fetch_with_cache c now key .failure fb =
          { result := FXClient.load_fallback fb,
            cache := { cache := removeKey key c.cache, ttl := c.ttl },
            upstreamCalled := true } := by
        simp [FXClient.fetch_with_cache, FXCache.get, hl, hf]
      refine ⟨by rw [e1]; exact List.filter_sublist _, by rw [e1], ?_⟩
      intro now2 u2 fb2
      rw [e1]
      cases u2 <;> simp [FXClient.fetch_with_cache, FXCache.get, lookup_removeKey_self]

/-- C3 is false as stated: when the first call's upstream response parses to
an empty (falsy) object, the response is cached but the truthiness check
`if cached:` ignores the cached hit, so the second call within the TTL window
issues a second upstream request — and here returns a different series. -/
theorem c3_counterexample :
    let first := FXClient.get_range (FXCache.mk [] 300) 0
      "2025-01-01" "2025-01-31" "EUR" "USD"
      (.success { rates := none, extra := false }) none
    let second := FXClient.get_range first.cache 10
      "2025-01-01" "2025-01-31" "EUR" "USD"
      (.success { rates := some [(20250101, DateRates.value 1)], extra := false }) none
    first.upstreamCalled = true ∧ second.upstreamCalled = true ∧
      second.result ≠ first.result := by
  decide

/-- C3 (amended): for two `get_range` calls with identical parameters within
the TTL window, where the first call misses the cache and its upstream
response parses to a NON-EMPTY (truthy) object, exactly one upstream call is
issued: the second call is served from cache, returns the identical series,
and leaves the cache unchanged. -/
theorem c3_idempotent_within_ttl :
    ∀ (c : FXCache) (t1 t2 : Int) (sD eD b sy : String) (d : JObj)
      (u2 : UpstreamResponse) (fb1 fb2 : Option JObj),
      c.cache.lookup (FXClient.range_key sD eD b sy) = none →
      d.truthy = true →
      t2 - t1 < c.ttl →
      let first := FXClient.get_range c t1 sD eD b sy (.success d) fb1
      let second := FXClient.get_range first.cache t2 sD eD b sy u2 fb2
      first.upstreamCalled = true ∧ first.result = .data d ∧
      second.upstreamCalled = false ∧ second.result = first.result ∧
      second.cache = first.cache := by
  intro c t1 t2 sD eD b sy d u2 fb1 fb2 hmiss htruthy httl
  have e1 : FXClient.get_range c t1 sD eD b sy (.success d) fb1 =
      { result := .data d,
        cache := FXCache.set c t1 (FXClient.range_key sD eD b sy) d,
        upstreamCalled := true } := by
    simp [FXClient.get_range, FXClient.fetch_with_cache, FXCache.get, hmiss]
  have e2 : FXClient.get_range (FXCache.set c t1 (FXClient.range_key sD eD b sy) d)
      t2 sD eD b sy u2 fb2 =
      { result := .data d,
        cache := FXCache.set c t1 (FXClient.range_key sD eD b sy) d,
        upstreamCalled := false } := by
    simp [FXClient.get_range, FXClient.fetch_with_cache, FXCache.get, FXCache.set,
      List.lookup_cons, httl, htruthy]
  refine ⟨?_, ?_, ?_, ?_, ?_⟩ <;> simp [e1, e2]

/-- Witness for the amended C3 at concrete inputs. -/
theorem c3_idempotent_witness :
    let d : JObj := { rates := some [(20250101, DateRates.value 1)], extra := false }
    let first := FXClient.get_range (FXCache.mk [] 300) 0
      "2025-01-01" "2025-01-31" "EUR" "USD" (.success d) none
    let second := FXClient.get_range first.cache 10
      "2025-01-01" "2025-01-31" "EUR" "USD" .failure none
    first.upstreamCalled = true ∧ first.result = .data d ∧
    second.upstreamCalled = false ∧ second.result = first.result ∧
    second.cache = first.cache :=
  c3_idempotent_within_ttl (FXCache.mk [] 300) 0 10
    "2025-01-01" "2025-01-31" "EUR" "USD"
    { rates := some [(20250101, DateRates.value 1)], extra := false }
    .failure none none (by decide) (by decide) (by decide)

/-- C5: on a cache miss with a failing upstream, the client issues exactly
one upstream request (no retry), surfaces no upstream error, and returns
exactly what `_load_fallback` produced: the snapshot's contents when the
fallback file loads, and the propagated `DataUnavailable` (`ValueError`)
when loading the fallback itself fails.  Both `get_range` and `get_latest`
behave this way. -/
theorem c5_fallback_on_upstream_failure :
    (∀ (c : FXCache) (now : Int) (sD eD b sy : String) (fb : Option JObj),
      (c.get now (FXClient.range_key sD eD b sy)).1 = none →
      (FXClient.get_range c now sD eD b sy .failure fb).upstreamCalled = true ∧
      (FXClient.get_range c now sD eD b sy .failure fb).result = FXClient.load_fallback fb ∧
      (∀ f, fb = some f →
        (FXClient.get_range c now sD eD b sy .failure fb).result = .data f) ∧
      (fb = none →
        (FXClient.get_range c now sD eD b sy .failure fb).result = .dataUnavailable)) ∧
    (∀ (c : FXCache) (now : Int) (b sy : String) (fb : Option JObj),
      (c.get now (FXClient.latest_key b sy)).1 = none →
      (FXClient.get_latest c now b sy .failure fb).upstreamCalled = true ∧
      (FXClient.get_latest c now b sy .failure fb).result = FXClient.load_fallback fb ∧
      (∀ f, fb = some f →
        (FXClient.get_latest c now b sy .failure fb).result = .data f) ∧
      (fb = none →
        (FXClient.get_latest c now b sy .failure fb).result = .dataUnavailable)) := by
  constructor
  · intro c now sD eD b sy fb hmiss
    have e1 : FXClient.get_range c now sD eD b sy .failure fb =
        { result := FXClient.load_fallback fb,
          cache := (c.get now (FXClient.range_key sD eD b sy)).2,
          upstreamCalled := true } := by
      simp [FXClient.get_range, FXClient.fetch_with_cache, hmiss]
    rw [e1]
    refine ⟨rfl, rfl, ?_, ?_⟩
    · rintro f rfl; rfl
    · rintro rfl; rfl
  · intro c now b sy fb hmiss
    have e1 : FXClient.get_latest c now b sy .failure fb =
        { result := FXClient.load_fallback fb,
          cache := (c.get now (FXClient.latest_key b sy)).2,
          upstreamCalled := true } := by
      simp [FXClient.get_latest, FXClient.fetch_with_cache, hmiss]
    rw [e1]
    refine ⟨rfl, rfl, ?_, ?_⟩
    · rintro f rfl; rfl
    · rintro rfl; rfl

/-- Witness for C5 at concrete inputs: a loading fallback for `get_range`
and a failing fallback for `get_latest`. -/
theorem c5_fallback_witness :
    ((FXClient.get_range (FXCache.mk [] 300) 7 "2025-01-01" "2025-01-31" "EUR" "USD"
        .failure (some { rates := some [(20250101, DateRates.value 1)], extra := false })
      ).upstreamCalled = true ∧
     (FXClient.get_range (FXCache.mk [] 300) 7 "2025-01-01" "2025-01-31" "EUR" "USD"
        .failure (some { rates := some [(20250101, DateRates.value 1)], extra := false })
      ).result = FXClient.load_fallback
        (some { rates := some [(20250101, DateRates.value 1)], extra := false }) ∧
     (∀ f, (some { rates := some [(20250101, DateRates.value 1)], extra := false } :
        Option JObj) = some f →
        (FXClient.get_range (FXCache.mk [] 300) 7 "2025-01-01" "2025-01-31" "EUR" "USD"
          .failure (some { rates := some [(20250101, DateRates.value 1)], extra := false })
        ).result = .data f) ∧
     ((some { rates := some [(20250101, DateRates.value 1)], extra := false } :
        Option JObj) = none →
        (FXClient.get_range (FXCache.mk [] 300) 7 "2025-01-01" "2025-01-31" "EUR" "USD"
          .failure (some { rates := some [(20250101, DateRates.value 1)], extra := false })
        ).result = .dataUnavailable)) ∧
    ((FXClient.get_latest (FXCache.mk [] 300) 7 "EUR" "USD" .failure none
      ).upstreamCalled = true ∧
     (FXClient.get_latest (FXCache.mk [] 300) 7 "EUR" "USD" .failure none
      ).result = FXClient.load_fallback none ∧
     (∀ f, (none : Option JObj) = some f →
        (FXClient.get_latest (FXCache.mk [] 300) 7 "EUR" "USD" .failure none
        ).result = .data f) ∧
     ((none : Option JObj) = none →
        (FXClient.get_latest (FXCache.mk [] 300) 7 "EUR" "USD" .failure none
        ).result = .dataUnavailable)) :=
  ⟨c5_fallback_on_upstream_failure.1 (FXCache.mk [] 300) 7
     "2025-01-01" "2025-01-31" "EUR" "USD"
     (some { rates := some [(20250101, DateRates.value 1)], extra := false }) (by decide),
   c5_fallback_on_upstream_failure.2 (FXCache.mk [] 300) 7 "EUR" "USD" none (by decide)⟩

/-- C10 is false as stated: a `get_range` call served via the fallback path
does change the cache when the initial lookup lazily evicts an expired entry
for the key. -/
theorem c10_counterexample :
    let key := FXClient.range_key "2025-01-01" "2025-01-31" "EUR" "USD"
    let v : JObj := { rates := some [(20250101, DateRates.value 1)], extra := false }
    let fb : JObj := { rates := some [(20250102, DateRates.value 2)], extra := false }
    let c0 : FXCache := FXCache.mk [(key, 0, v)] 300
    let r := FXClient.get_range c0 1000 "2025-01-01" "2025-01-31" "EUR" "USD"
      .failure (some fb)
    r.result = .data fb ∧ r.upstreamCalled = true ∧ r.cache ≠ c0 := by
  decide

/-- C10 (amended): when `get_range` or `get_latest` is served via the
fallback path, nothing is stored in the cache — the resulting cache dict is
a sublist of the original (at most the lazy eviction of the key's expired
entry happens) with the TTL unchanged — so a subsequent call with the same
parameters issues a fresh upstream fetch instead of being served the
fallback data from cache. -/
theorem c10_fallback_never_cached :
    (∀ (c : FXCache) (now : Int) (sD eD b sy : String) (fb : Option JObj),
      (FXClient.get_range c now sD eD b sy .failure fb).upstreamCalled = true →
      List.Sublist (FXClient.get_range c now sD eD b sy .failure fb).cache.cache c.cache ∧
      (FXClient.get_range c now sD eD b sy .failure fb).cache.ttl = c.ttl ∧
      ∀ (now2 : Int) (u2 : UpstreamResponse) (fb2 : Option JObj),
        (FXClient.get_range (FXClient.get_range c now sD eD b sy .failure fb).cache
          now2 sD eD b sy u2 fb2).upstreamCalled = true) ∧
    (∀ (c : FXCache) (now : Int) (b sy : String) (fb : Option JObj),
      (FXClient.get_latest c now b sy .failure fb).upstreamCalled = true →
      List.Sublist (FXClient.get_latest c now b sy .failure fb).cache.cache c.cache ∧
      (FXClient.get_latest c now b sy .failure fb).cache.ttl = c.ttl ∧
      ∀ (now2 : Int) (u2 : UpstreamResponse) (fb2 : Option JObj),
        (FXClient.get_latest (FXClient.get_latest c now b sy .failure fb).cache
          now2 b sy u2 fb2).upstreamCalled = true) :=
  ⟨fun c now sD eD b sy fb h =>
     fetch_fallback_no_store c now (FXClient.range_key sD eD b sy) fb h,
   fun c now b sy fb h =>
     fetch_fallback_no_store c now (FXClient.latest_key b sy) fb h⟩

/-- Witness for the amended C10: an expired entry is evicted, nothing is
stored, and the repeated call goes upstream. -/
theorem c10_fallback_witness :
    let key := FXClient.range_key "2025-01-01" "2025-01-31" "EUR" "USD"
    let v : JObj := { rates := some [(20250101, DateRates.value 1)], extra := false }
    let c0 : FXCache := FXCache.mk [(key, 0, v)] 300
    List.Sublist (FXClient.get_range c0 1000 "2025-01-01" "2025-01-31" "EUR" "USD"
      .failure none).cache.cache c0.cache ∧
    (FXClient.get_range c0 1000 "2025-01-01" "2025-01-31" "EUR" "USD"
      .failure none).cache.ttl = c0.ttl ∧
    ∀ (now2 : Int) (u2 : UpstreamResponse) (fb2 : Option JObj),
      (FXClient.get_range (FXClient.get_range c0 1000 "2025-01-01" "2025-01-31" "EUR" "USD"
        .failure none).cache now2 "2025-01-01" "2025-01-31" "EUR" "USD"
        u2 fb2).upstreamCalled = true :=
  c10_fallback_never_cached.1
    (FXCache.mk [(FXClient.range_key "2025-01-01" "2025-01-31" "EUR" "USD", 0,
      { rates := some [(20250101, DateRates.value 1)], extra := false })] 300)
    1000 "2025-01-01" "2025-01-31" "EUR" "USD" none (by decide)

/-- C2: the zero-rate guard.  `_safe_pct_change` returns `None` whenever the
previous value is exactly zero; inside the daily loop a zero previous emitted
rate therefore yields an absent percentage change (never an error, never an
infinite value — the functions are total and the output field is `none`);
in particular a zero rate immediately followed by a nonzero rate produces an
absent percentage change for that transition. -/
theorem c2_zero_rate_guard :
    (∀ new_value : ℚ, FXCalculator.safe_pct_change 0 new_value = none) ∧
    (∀ (rates : List (Nat × DateRates)) (d : Nat) (rest : List Nat) (r : ℚ),
      (rates.lookup d).bind FXCalculator.extract_usd_rate = some r →
      FXCalculator.daily_loop rates (d :: rest) (some 0) =
        { date := d, rate := roundTo 6 r, pct_change := none } ::
          FXCalculator.daily_loop rates rest (some r)) ∧
    (∀ (d1 d2 : Nat) (q : ℚ), d1 < d2 → q ≠ 0 →
      FXCalculator.calculate_daily_metrics
        { rates := some [(d1, .value 0), (d2, .value q)], extra := false } =
        [{ date := d1, rate := roundTo 6 0, pct_change := none },
         { date := d2, rate := roundTo 6 q, pct_change := none }]) := by
  refine ⟨?_, ?_, ?_⟩
  · intro x
    simp [FXCalculator.safe_pct_change]
  · intro rates d rest r h
    simp [FXCalculator.daily_loop, h, FXCalculator.safe_pct_change]
  · intro d1 d2 q hlt hq
    have hne : (d2 == d1) = false := beq_false_of_ne (Nat.ne_of_gt hlt)
    have hle : d1 ≤ d2 := Nat.le_of_lt hlt
    simp [FXCalculator.calculate_daily_metrics, List.insertionSort, List.orderedInsert,
      hle, FXCalculator.daily_loop, List.lookup_cons, hne,
      FXCalculator.extract_usd_rate, FXCalculator.safe_pct_change]

/-- Witness for C2 at concrete inputs. -/
theorem c2_zero_rate_guard_witness :
    FXCalculator.safe_pct_change 0 5 = none ∧
    FXCalculator.daily_loop [(20250101, DateRates.value 5)] [20250101] (some 0) =
      [{ date := 20250101, rate := roundTo 6 5, pct_change := none }] ∧
    FXCalculator.calculate_daily_metrics
      { rates := some [(20250101, DateRates.value 0), (20250102, DateRates.value 2)],
        extra := false } =
      [{ date := 20250101, rate := roundTo 6 0, pct_change := none },
       { date := 20250102, rate := roundTo 6 2, pct_change := none }] :=
  ⟨c2_zero_rate_guard.1 5,
   c2_zero_rate_guard.2.1 [(20250101, DateRates.value 5)] 20250101 [] 5 (by decide),
   c2_zero_rate_guard.2.2 20250101 20250102 2 (by decide) (by decide)⟩

/-! ### Helper lemmas for the daily-metrics loop -/

/-- Association-list lookup only depends on the key-value multiset when the
keys are unique: reordering the underlying dict does not change any lookup. -/
theorem lookup_eq_of_perm {α β : Type} [BEq α] [LawfulBEq α]
    {l₁ l₂ : List (α × β)} (hp : List.Perm l₁ l₂) :
    (l₁.map Prod.fst).Nodup → ∀ a, l₁.lookup a = l₂.lookup a := by
  induction hp with
  | nil => intro _ a; rfl
  | cons x p ih =>
    intro hn a
    rcases x with ⟨k, v⟩
    rw [List.map_cons] at hn
    have hn' := hn.of_cons
    cases h : a == k with
    | true => simp [List.lookup_cons, h]
    | false => simp [List.lookup_cons, h, ih hn' a]
  | swap x y l =>
    intro hn a
    rcases x with ⟨k1, v1⟩
    rcases y with ⟨k2, v2⟩
    rw [List.map_cons, List.map_cons] at hn
    have hne : k2 ≠ k1 :=
      List.rel_of_pairwise_cons hn (List.mem_cons_self _ _)
    cases h2 : a == k2 with
    | true =>
      cases h1 : a == k1 with
      | true => exact absurd ((eq_of_beq h2).symm.trans (eq_of_beq h1)) hne
      | false => simp [List.lookup_cons, h1, h2]
    | false =>
      cases h1 : a == k1 with
      | true => simp [List.lookup_cons, h1, h2]
      | false => simp [List.lookup_cons, h1, h2]
  | trans p1 p2 ih1 ih2 =>
    intro hn a
    exact (ih1 hn a).trans (ih2 ((p1.map Prod.fst).nodup_iff.mp hn) a)

/-- The daily loop only inspects the rates dict through lookups. -/
theorem daily_loop_congr (r₁ r₂ : List (Nat × DateRates))
    (h : ∀ d, r₁.lookup d = r₂.lookup d) (dates : List Nat) (prev : Option ℚ) :
    FXCalculator.daily_loop r₁ dates prev = FXCalculator.daily_loop r₂ dates prev := by
  induction dates generalizing prev with
  | nil => rfl
  | cons d rest ih =>
    unfold FXCalculator.daily_loop
    rw [h d]
    cases (r₂.lookup d).bind FXCalculator.extract_usd_rate with
    | none => exact ih prev
    | some r => exact congrArg _ (ih (some r))

/-- The daily loop emits at most one metric per processed date. -/
theorem daily_loop_length (rates : List (Nat × DateRates)) (dates : List Nat)
    (prev : Option ℚ) :
    (FXCalculator.daily_loop rates dates prev).length ≤ dates.length := by
  induction dates generalizing prev with
  | nil => simp [FXCalculator.daily_loop]
  | cons d rest ih =>
    unfold FXCalculator.daily_loop
    cases (rates.lookup d).bind FXCalculator.extract_usd_rate with
    | none => exact le_trans (ih prev) (Nat.le_succ _)
    | some r =>
      simpa using Nat.succ_le_succ (ih (some r))

/-- The emitted dates are a subsequence of the processed dates. -/
theorem daily_loop_dates_sublist (rates : List (Nat × DateRates)) (dates : List Nat)
    (prev : Option ℚ) :
    List.Sublist ((FXCalculator.daily_loop rates dates prev).map DailyMetric.date) dates := by
  induction dates generalizing prev with
  | nil => simp [FXCalculator.daily_loop]
  | cons d rest ih =>
    unfold FXCalculator.daily_loop
    cases (rates.lookup d).bind FXCalculator.extract_usd_rate with
    | none => exact (ih prev).cons d
    | some r => simpa using (ih (some r)).cons₂ d

/-- A loop started with no previous rate emits, if anything, a first metric
with an absent percentage change. -/
theorem daily_loop_head_pct_none (rates : List (Nat × DateRates)) (dates : List Nat) :
    ∀ m ∈ (FXCalculator.daily_loop rates dates none).head?, m.pct_change = none := by
  induction dates with
  | nil => simp [FXCalculator.daily_loop]
  | cons d rest ih =>
    unfold FXCalculator.daily_loop
    cases (rates.lookup d).bind FXCalculator.extract_usd_rate with
    | none => exact ih
    | some r =>
      intro m hm
      simp only [List.head?_cons, Option.mem_def, Option.some.injEq] at hm
      simp [← hm]

/-- C6: shape of `calculate_daily_metrics` on non-empty input: the result is
invariant under reordering of the input dict (dates are processed in
ascending order regardless of input ordering); its length is at most the
input date count; its dates are strictly increasing; a date whose bundle
lacks the USD quote currency is skipped without error and excluded from the
change chain (the loop continues with the same previous rate); the first
emitted metric has an absent percentage change; and an emitted metric whose
previous emitted (unrounded) rate is `p ≠ 0` carries exactly
`round(((cur - p) / p) * 100, 4)` and hands `cur` on as the next previous
rate. -/
theorem c6_daily_metrics_shape :
    (∀ (r₁ r₂ : List (Nat × DateRates)) (e : Bool),
      List.Perm r₁ r₂ → (r₁.map Prod.fst).Nodup →
      FXCalculator.calculate_daily_metrics { rates := some r₁, extra := e } =
        FXCalculator.calculate_daily_metrics { rates := some r₂, extra := e }) ∧
    (∀ (r : List (Nat × DateRates)) (e : Bool),
      (FXCalculator.calculate_daily_metrics { rates := some r, extra := e }).length ≤
        r.length) ∧
    (∀ (r : List (Nat × DateRates)) (e : Bool),
      (r.map Prod.fst).Nodup →
      ((FXCalculator.calculate_daily_metrics { rates := some r, extra := e }).map
        DailyMetric.date).Sorted (· < ·)) ∧
    (∀ (rates : List (Nat × DateRates)) (d : Nat) (currencies : List (String × ℚ))
      (rest : List Nat) (prev : Option ℚ),
      rates.lookup d = some (.bundle currencies) → currencies.lookup "USD" = none →
      FXCalculator.daily_loop rates (d :: rest) prev =
        FXCalculator.daily_loop rates rest prev) ∧
    (∀ (rates_data : JObj) (m : DailyMetric),
      (FXCalculator.calculate_daily_metrics rates_data).head? = some m →
      m.pct_change = none) ∧
    (∀ (rates : List (Nat × DateRates)) (d : Nat) (rest : List Nat) (p cur : ℚ),
      (rates.lookup d).bind FXCalculator.extract_usd_rate = some cur → p ≠ 0 →
      FXCalculator.daily_loop rates (d :: rest) (some p) =
        { date := d, rate := roundTo 6 cur,
          pct_change := some (roundTo 4 (((cur - p) / p) * 100)) } ::
          FXCalculator.daily_loop rates rest (some cur)) := by
  refine ⟨?_, ?_, ?_, ?_, ?_, ?_⟩
  · intro r₁ r₂ e hp hn
    have hkeys : List.insertionSort (· ≤ ·) (r₁.map Prod.fst) =
        List.insertionSort (· ≤ ·) (r₂.map Prod.fst) :=
      List.eq_of_perm_of_sorted
        ((List.perm_insertionSort _ _).trans ((hp.map Prod.fst).trans
          (List.perm_insertionSort _ _).symm))
        (List.sorted_insertionSort _ _) (List.sorted_insertionSort _ _)
    simp only [FXCalculator.calculate_daily_metrics]
    rw [hkeys]
    exact daily_loop_congr r₁ r₂ (lookup_eq_of_perm hp hn) _ none
  · intro r e
    simp only [FXCalculator.calculate_daily_metrics]
    have h1 := daily_loop_length r (List.insertionSort (· ≤ ·) (r.map Prod.fst)) none
    have h2 : (List.insertionSort (· ≤ ·) (r.map Prod.fst)).length = r.length := by
      rw [(List.perm_insertionSort (· ≤ ·) (r.map Prod.fst)).length_eq]
      simp
    exact h2 ▸ h1
  · intro r e hn
    simp only [FXCalculator.calculate_daily_metrics]
    have hs : (List.insertionSort (· ≤ ·) (r.map Prod.fst)).Sorted (· ≤ ·) :=
      List.sorted_insertionSort _ _
    have hnd : (List.insertionSort (· ≤ ·) (r.map Prod.fst)).Nodup :=
      (List.perm_insertionSort _ _).nodup_iff.mpr hn
    exact (hs.lt_of_le hnd).sublist (daily_loop_dates_sublist r _ none)
  · intro rates d currencies rest prev h1 h2
    conv_lhs => unfold FXCalculator.daily_loop
    rw [h1]
    simp [FXCalculator.extract_usd_rate, h2]
  · intro rates_data m hm
    rcases rates_data with ⟨ro, e⟩
    cases ro with
    | none => simp [FXCalculator.calculate_daily_metrics] at hm
    | some rates =>
      exact daily_loop_head_pct_none rates
        (List.insertionSort (· ≤ ·) (rates.map Prod.fst)) m (Option.mem_def.mpr hm)
  · intro rates d rest p cur h hp
    conv_lhs => unfold FXCalculator.daily_loop
    rw [h]
    simp [FXCalculator.safe_pct_change, hp]

/-- Witness for C6 at concrete inputs: a reordered two-day dict, a skipped
date whose bundle lacks USD, and a chained percentage change. -/
theorem c6_daily_metrics_witness :
    FXCalculator.calculate_daily_metrics
      { rates := some [(20250102, DateRates.value 2), (20250101, DateRates.value 1)],
        extra := false } =
      FXCalculator.calculate_daily_metrics
        { rates := some [(20250101, DateRates.value 1), (20250102, DateRates.value 2)],
          extra := false } ∧
    FXCalculator.daily_loop [(20250101, DateRates.bundle [("JPY", 3)])]
      [20250101, 20250102] none =
      FXCalculator.daily_loop [(20250101, DateRates.bundle [("JPY", 3)])] [20250102] none ∧
    FXCalculator.daily_loop [(20250102, DateRates.value 2)] [20250102] (some 1) =
      [{ date := 20250102, rate := roundTo 6 2,
         pct_change := some (roundTo 4 (((2 - 1) / 1) * 100)) }] :=
  ⟨c6_daily_metrics_shape.1 _ _ false (by decide) (by decide),
   c6_daily_metrics_shape.2.2.2.1 _ 20250101 [("JPY", 3)] [20250102] none
     (by decide) (by decide),
   c6_daily_metrics_shape.2.2.2.2.2 _ 20250102 [] 1 2 (by decide) (by decide)⟩

/-- Rounding an integer-valued rational returns that integer. -/
theorem roundHalfEven_intCast (n : ℤ) : roundHalfEven (n : ℚ) = n := by
  unfold roundHalfEven
  rw [Int.floor_intCast, sub_self, if_pos (by norm_num)]

/-- Evaluation helper: when `q * 10 ^ nd` is an integer `m`, rounding is
exact and `roundTo nd q = m / 10 ^ nd`. -/
theorem roundTo_of_intCast (nd : Nat) (q : ℚ) (m : ℤ) (h : q * 10 ^ nd = (m : ℚ)) :
    roundTo nd q = (m : ℚ) / 10 ^ nd := by
  unfold roundTo
  rw [h, roundHalfEven_intCast]

/-- C7: on the two-day series mapping 2025-01-01 to 1.10 and 2025-01-02 to
1.21 (dates modelled as 20250101 and 20250102), `calculate_daily_metrics`
yields rate 1.1 with absent change then rate 1.21 with change 10.0, and
`calculate_totals` on that output yields start 1.1, end 1.21, total change
10.0 and mean 1.155 — rates rounded to 6 decimals, changes to 4, applied
once at emission (the percentage change is computed from the unrounded
previous rate threaded by the loop). -/
theorem c7_rounding_laws :
    FXCalculator.calculate_daily_metrics
      { rates := some [(20250101, DateRates.value (11/10)),
                       (20250102, DateRates.value (121/100))], extra := false } =
      [{ date := 20250101, rate := 11/10, pct_change := none },
       { date := 20250102, rate := 121/100, pct_change := some 10 }] ∧
    FXCalculator.calculate_totals
      [{ date := 20250101, rate := 11/10, pct_change := none },
       { date := 20250102, rate := 121/100, pct_change := some 10 }] =
      { start_rate := some (11/10), end_rate := some (121/100),
        total_pct_change := some 10, mean_rate := some (231/200) } := by
  have h1 : roundTo 6 ((11:ℚ)/10) = 11/10 := by
    rw [roundTo_of_intCast 6 ((11:ℚ)/10) 1100000 (by norm_num)]
    norm_num
  have h2 : roundTo 6 ((121:ℚ)/100) = 121/100 := by
    rw [roundTo_of_intCast 6 ((121:ℚ)/100) 1210000 (by norm_num)]
    norm_num
  have h3 : FXCalculator.safe_pct_change ((11:ℚ)/10) ((121:ℚ)/100) = some 10 := by
    unfold FXCalculator.safe_pct_change
    rw [if_neg (by norm_num)]
    norm_num
  have h4 : roundTo 4 (10:ℚ) = 10 := by
    rw [roundTo_of_intCast 4 (10:ℚ) 100000 (by norm_num)]
    norm_num
  have h5 : roundTo 6 ((231:ℚ)/200) = 231/200 := by
    rw [roundTo_of_intCast 6 ((231:ℚ)/200) 1155000 (by norm_num)]
    norm_num
  constructor
  · have hne : ((20250102 : Nat) == 20250101) = false := by decide
    simp [FXCalculator.calculate_daily_metrics, List.insertionSort, List.orderedInsert,
      FXCalculator.daily_loop, List.lookup_cons, hne, FXCalculator.extract_usd_rate,
      h1, h2, h3, h4]
  · simp only [FXCalculator.calculate_totals]
    norm_num [List.getLast, h1, h2, h3, h4, h5]
